import Mathlib

/-!
Verification of the `lib-migrations-sql` crate: a shallow embedding of
`src/migration.rs` (the `SqlMigration` type and its `Migration` instance over any
`SqlExecutor` context) and `src/sqlite.rs` (the `SqliteStore` implementation of
`MigrationStore` on top of a `_migrations` SQLite table), together with theorems
settling the specification claims about them.

Machine integers are modelled as `Nat`/`Int`: Rust `u64` values are `Nat` (with an
explicit `% 2^64` wherever the code casts), and SQLite `INTEGER` column values are
`Int` (the `i64` the driver reads and writes).  The wrapping casts `as i64` /
`as u64` that `sqlite.rs` performs on `version` and `applied_at` are modelled
explicitly by `toI64` / `toU64`.
-/

namespace MigrationsSql

/-- Deployment phase tag, re-exported from `lib_migrations_core` (spec §3). -/
inductive Phase
  | PreDeploy
  | PostDeploy
deriving DecidableEq, Repr

/-- Modelled from the spec: the `lib_migrations_core` error taxonomy (§7), whose
definition lives in the core crate, not in this repository's sources.  Only the
variants this crate constructs are needed: `MigrationFailed(version, detail)`,
`RollbackNotSupported(version)` and `StoreError(detail)`. -/
inductive CoreError
  | MigrationFailed (version : Nat) (detail : String)
  | RollbackNotSupported (version : Nat)
  | StoreError (detail : String)
deriving DecidableEq, Repr

/-- Modelled from the spec: `lib_migrations_core::Error::failed`, the constructor
`migration.rs` calls to wrap an executor error into `MigrationFailed`. -/
def CoreError.failed (version : Nat) (detail : String) : CoreError :=
  CoreError.MigrationFailed version detail

/-- Modelled from the spec: `lib_migrations_core::Error::store`, the constructor
`sqlite.rs` calls to wrap a database error into `StoreError`. -/
def CoreError.store (detail : String) : CoreError :=
  CoreError.StoreError detail

/-- Modelled from the spec: `lib_migrations_core::MigrationRecord`
`{version, name, applied_at}` (spec §3), with `u64` fields as `Nat`. -/
structure MigrationRecord where
  version : Nat
  name : String
  applied_at : Nat
deriving DecidableEq, Repr

/-- A `SqlExecutor` execution context (`migration.rs`).  The Rust trait exposes one
effectful method `execute(&mut self, sql) -> Result<(), E>`; we model the context
as a state carrying `trace`, the list of statement batches executed so far, and
`behavior`, an oracle giving each submitted statement's outcome (`none` = success,
`some msg` = the displayed executor error). -/
structure ExecCtx where
  behavior : List String → String → Option String
  trace : List String

/-- Method `SqlExecutor::execute`: submits `sql` to the context, recording it in the
trace and returning the oracle's outcome. -/
def ExecCtx.execute (ctx : ExecCtx) (sql : String) : Option String × ExecCtx :=
  (ctx.behavior ctx.trace sql, { ctx with trace := ctx.trace ++ [sql] })

/-- Struct `SqlMigration` (`migration.rs`): version, name, phase, up SQL, optional down
SQL. -/
structure SqlMigration where
  version : Nat
  name : String
  phase : Phase
  up_sql : String
  down_sql : Option String

/-- Constructor `SqlMigration::new(version, name, up_sql)`: phase defaults to `PreDeploy`,
`down_sql` to `None`. -/
def SqlMigration.new (version : Nat) (name up_sql : String) : SqlMigration :=
  { version := version, name := name, phase := Phase.PreDeploy,
    up_sql := up_sql, down_sql := none }

/-- Builder `SqlMigration::with_down(down_sql)`: sets the rollback SQL. -/
def SqlMigration.with_down (m : SqlMigration) (down : String) : SqlMigration :=
  { m with down_sql := some down }

/-- Accessor `SqlMigration::has_rollback`. -/
def SqlMigration.has_rollback (m : SqlMigration) : Bool :=
  m.down_sql.isSome

/-- Method `Migration::can_rollback` for `SqlMigration`. -/
def SqlMigration.can_rollback (m : SqlMigration) : Bool :=
  m.down_sql.isSome

/-- Method `Migration::apply` for `SqlMigration`: `ctx.execute(&self.up_sql)`, mapping an
executor error `e` to `Error::failed(self.version, e.to_string())`. -/
def SqlMigration.apply (m : SqlMigration) (ctx : ExecCtx) :
    Except CoreError Unit × ExecCtx :=
  let r := ctx.execute m.up_sql
  match r.1 with
  | none => (Except.ok (), r.2)
  | some e => (Except.error (CoreError.failed m.version e), r.2)

/-- Method `Migration::rollback` for `SqlMigration`: with down SQL present, execute it
(mapping an executor error through `Error::failed`); otherwise return
`Error::RollbackNotSupported(self.version)` without touching the context. -/
def SqlMigration.rollback (m : SqlMigration) (ctx : ExecCtx) :
    Except CoreError Unit × ExecCtx :=
  match m.down_sql with
  | some sql =>
      let r := ctx.execute sql
      match r.1 with
      | none => (Except.ok (), r.2)
      | some e => (Except.error (CoreError.failed m.version e), r.2)
  | none => (Except.error (CoreError.RollbackNotSupported m.version), ctx)

/-- The Rust cast `(v : u64) as i64`: the two's-complement reinterpretation of a
64-bit value, as `sqlite.rs` performs on `version` and on the timestamp before
binding them to SQLite `INTEGER` columns. -/
def toI64 (v : Nat) : Int :=
  if v % 2 ^ 64 < 2 ^ 63 then ((v % 2 ^ 64 : Nat) : Int)
  else ((v % 2 ^ 64 : Nat) : Int) - 2 ^ 64

/-- The Rust cast `(i : i64) as u64`, as `sqlite.rs` performs on the `INTEGER`
values read back by `applied()`. -/
def toU64 (i : Int) : Nat :=
  (i % 2 ^ 64).toNat

/-- One row of the `_migrations` tracking table: the stored SQLite `INTEGER`
(`i64`) key and timestamp plus the `TEXT` name. -/
structure LedgerRow where
  version : Int
  name : String
  applied_at : Int
deriving DecidableEq, Repr

/-- Struct `SqliteStore` (`sqlite.rs`), abstracted to the observable database state: does
the `_migrations` table exist, and what rows does it hold (in insertion order). -/
structure SqliteStore where
  table_exists : Bool
  rows : List LedgerRow
deriving DecidableEq, Repr

/-- Helper `SqliteStore::now()`: `SystemTime::now().duration_since(UNIX_EPOCH)` modelled
as an oracle `clock` (`some t` = a successful read of `t` epoch seconds, `none` =
a clock read failure, i.e. a time before the Unix epoch), then
`.map(|d| d.as_secs()).unwrap_or(0)`. -/
def SqliteStore.now (clock : Option Nat) : Nat :=
  clock.getD 0

/-- Method `MigrationStore::init` for `SqliteStore`:
`CREATE TABLE IF NOT EXISTS _migrations (...)` — creates the table when missing,
leaves it (and its rows) alone when present, and succeeds either way. -/
def SqliteStore.init (st : SqliteStore) : Except CoreError Unit × SqliteStore :=
  (Except.ok (), { st with table_exists := true })

/-- Conversion of a stored row to the `MigrationRecord` that `applied()` builds
from it: `row.get::<_, i64>(..)? as u64` on `version` and `applied_at`. -/
def rowToRecord (r : LedgerRow) : MigrationRecord :=
  { version := toU64 r.version, name := r.name, applied_at := toU64 r.applied_at }

/-- Method `MigrationStore::applied` for `SqliteStore`:
`SELECT version, name, applied_at FROM _migrations ORDER BY version` — the rows
sorted ascending by their stored `INTEGER` (`i64`) key, each converted through the
`as u64` casts; an error when the table does not exist. -/
def SqliteStore.applied (st : SqliteStore) : Except CoreError (List MigrationRecord) :=
  if st.table_exists then
    Except.ok ((List.insertionSort (fun a b => a.version ≤ b.version) st.rows).map
      rowToRecord)
  else
    Except.error (CoreError.store "no such table: _migrations")

/-- The row `mark_applied` inserts: `(version as i64, name, now() as i64)`. -/
def appliedRow (clock : Option Nat) (version : Nat) (name : String) : LedgerRow :=
  { version := toI64 version, name := name,
    applied_at := toI64 (SqliteStore.now clock) }

/-- Method `MigrationStore::mark_applied` for `SqliteStore`:
`INSERT INTO _migrations (version, name, applied_at) VALUES (?1, ?2, ?3)`.
`version INTEGER PRIMARY KEY` makes the insert fail on a duplicate key (a
`StoreError`, leaving the table unchanged); it also fails when the table does not
exist; otherwise the row is appended. -/
def SqliteStore.mark_applied (st : SqliteStore) (clock : Option Nat)
    (version : Nat) (name : String) : Except CoreError Unit × SqliteStore :=
  if st.table_exists then
    if st.rows.any (fun r => r.version == toI64 version) then
      (Except.error (CoreError.store "UNIQUE constraint failed: _migrations.version"),
        st)
    else
      (Except.ok (), { st with rows := st.rows ++ [appliedRow clock version name] })
  else
    (Except.error (CoreError.store "no such table: _migrations"), st)

/-- Method `MigrationStore::mark_rolled_back` for `SqliteStore`:
`DELETE FROM _migrations WHERE version = ?1` — removes any matching row and
succeeds whether or not one existed (SQLite reports success for a `DELETE`
matching zero rows); it fails only when the table does not exist. -/
def SqliteStore.mark_rolled_back (st : SqliteStore) (version : Nat) :
    Except CoreError Unit × SqliteStore :=
  if st.table_exists then
    (Except.ok (),
      { st with rows := st.rows.filter (fun r => !(r.version == toI64 version)) })
  else
    (Except.error (CoreError.store "no such table: _migrations"), st)

/-- A freshly initialized, empty store: `open_in_memory` followed by `init`. -/
def freshStore : SqliteStore :=
  { table_exists := true, rows := [] }

/-- A benign executor context for instantiations: every statement succeeds. -/
def okCtx : ExecCtx :=
  { behavior := fun _ _ => none, trace := [] }

/-- An executor context whose first statement fails with message `msg`. -/
def failCtx (msg : String) : ExecCtx :=
  { behavior := fun _ _ => some msg, trace := [] }

/-- C10: `SqlMigration::new` defaults the phase to `PreDeploy` and leaves the
migration without down SQL, so `has_rollback()` and `can_rollback()` are `false`
and `down_sql()` is `None` until `with_down` is called. -/
theorem new_defaults (v : Nat) (nm up : String) :
    (SqlMigration.new v nm up).phase = Phase.PreDeploy ∧
    (SqlMigration.new v nm up).down_sql = none ∧
    (SqlMigration.new v nm up).has_rollback = false ∧
    (SqlMigration.new v nm up).can_rollback = false :=
  ⟨rfl, rfl, rfl, rfl⟩

/-- C9: when a `SqlMigration` has no down SQL, `rollback` returns
`RollbackNotSupported(version)` and returns the context exactly as given — the
executor's `execute` is never invoked, so no statement is added to the trace and
the target system's state is unchanged. -/
theorem rollback_without_down_leaves_ctx (m : SqlMigration) (ctx : ExecCtx)
    (h : m.down_sql = none) :
    m.rollback ctx = (Except.error (CoreError.RollbackNotSupported m.version), ctx) := by
  unfold SqlMigration.rollback
  rw [h]

/-- Witness for C9 at a concrete migration and context. -/
theorem rollback_without_down_leaves_ctx_witness :
    (SqlMigration.new 7 "m" "UP").rollback okCtx =
      (Except.error (CoreError.RollbackNotSupported 7), okCtx) :=
  rollback_without_down_leaves_ctx (SqlMigration.new 7 "m" "UP") okCtx rfl

/-- C3: `rollback` on a migration without down SQL fails with
`RollbackNotSupported` carrying the migration's version; with down SQL from
`with_down`, it executes that SQL on the context (appending it to the trace),
succeeding when the executor succeeds and wrapping the executor's error in
`MigrationFailed(version, detail)` when it fails. -/
theorem rollback_spec (m : SqlMigration) (ctx : ExecCtx) :
    (m.down_sql = none →
      (m.rollback ctx).1 = Except.error (CoreError.RollbackNotSupported m.version)) ∧
    (∀ sql, m.down_sql = some sql →
      (m.rollback ctx).2.trace = ctx.trace ++ [sql] ∧
      (ctx.behavior ctx.trace sql = none → (m.rollback ctx).1 = Except.ok ()) ∧
      (∀ e, ctx.behavior ctx.trace sql = some e →
        (m.rollback ctx).1 = Except.error (CoreError.MigrationFailed m.version e))) := by
  unfold SqlMigration.rollback ExecCtx.execute
  cases h : m.down_sql with
  | none => simp
  | some sql =>
      refine ⟨by simp, ?_⟩
      intro s hs
      obtain rfl : sql = s := by injection hs
      cases hb : ctx.behavior ctx.trace sql <;>
        simp [hb, CoreError.failed]

/-- Witness for C3: rolling back a concrete migration built with `with_down`
executes the down SQL. -/
theorem rollback_spec_witness :
    ((((SqlMigration.new 3 "m" "UP").with_down "DOWN").rollback okCtx).2.trace =
        okCtx.trace ++ ["DOWN"]) ∧
    ((((SqlMigration.new 3 "m" "UP").with_down "DOWN").rollback okCtx).1 =
        Except.ok ()) := by
  have h := (rollback_spec ((SqlMigration.new 3 "m" "UP").with_down "DOWN") okCtx).2
    "DOWN" rfl
  exact ⟨h.1, h.2.1 rfl⟩

/-- C2: `can_rollback()` agrees with `rollback`: it returns `true` exactly when,
for every context, `rollback` does not return `RollbackNotSupported` — which is
exactly when down SQL was defined. -/
theorem can_rollback_agrees (m : SqlMigration) :
    (m.can_rollback = true ↔
      ∀ (ctx : ExecCtx) (v : Nat),
        (m.rollback ctx).1 ≠ Except.error (CoreError.RollbackNotSupported v)) ∧
    (m.can_rollback = true ↔ m.down_sql.isSome = true) := by
  refine ⟨?_, Iff.rfl⟩
  unfold SqlMigration.can_rollback SqlMigration.rollback ExecCtx.execute
  cases h : m.down_sql with
  | none =>
      simp only [Option.isSome_none, Bool.false_eq_true, false_iff, not_forall]
      exact ⟨okCtx, m.version, by simp⟩
  | some sql =>
      simp only [Option.isSome_some, true_iff]
      intro ctx v
      cases hb : ctx.behavior ctx.trace sql <;> simp [hb, CoreError.failed]

/-- C4: `apply` submits the up SQL to the context; when the executor fails with
error `e`, the result is `MigrationFailed` carrying the migration's version and
the detail of `e` (the executor error is wrapped, never raw, never swallowed);
when the executor succeeds, `apply` returns `Ok`. -/
theorem apply_wraps_executor_error (m : SqlMigration) (ctx : ExecCtx) :
    ((m.apply ctx).2.trace = ctx.trace ++ [m.up_sql]) ∧
    (∀ e, ctx.behavior ctx.trace m.up_sql = some e →
      (m.apply ctx).1 = Except.error (CoreError.MigrationFailed m.version e)) ∧
    (ctx.behavior ctx.trace m.up_sql = none → (m.apply ctx).1 = Except.ok ()) := by
  unfold SqlMigration.apply ExecCtx.execute
  cases hb : ctx.behavior ctx.trace m.up_sql <;>
    simp [hb, CoreError.failed]

/-- Witness for C4: a failing executor yields `MigrationFailed` with the version
and the executor's message; a succeeding one yields `Ok`. -/
theorem apply_wraps_executor_error_witness :
    (((SqlMigration.new 2 "m" "UP").apply (failCtx "boom")).1 =
        Except.error (CoreError.MigrationFailed 2 "boom")) ∧
    (((SqlMigration.new 2 "m" "UP").apply okCtx).1 = Except.ok ()) :=
  ⟨(apply_wraps_executor_error (SqlMigration.new 2 "m" "UP") (failCtx "boom")).2.1
      "boom" rfl,
    (apply_wraps_executor_error (SqlMigration.new 2 "m" "UP") okCtx).2.2 rfl⟩

/-- C7: `SqliteStore::init` is idempotent — a second `init()` succeeds and leaves
`applied()` exactly as after the first. -/
theorem init_idempotent (st : SqliteStore) :
    (st.init.2.init).1 = Except.ok () ∧
    (st.init.2.init).2.applied = st.init.2.applied :=
  ⟨rfl, rfl⟩

/-- An initialized store holding the single record `(1, "one")`, applied at
clock reading 5. -/
def oneStore : SqliteStore :=
  (freshStore.mark_applied (some 5) 1 "one").2

/-- C1 counterexample: on a freshly initialized (empty) ledger, version 1 is
absent, yet `mark_rolled_back(1)` returns success, not an error — the `DELETE`
matches zero rows and SQLite reports success, refuting the claim that an absent
version yields an error. -/
theorem mark_rolled_back_absent_counterexample :
    freshStore.rows = [] ∧
    (freshStore.mark_rolled_back 1).1 = Except.ok () :=
  ⟨rfl, rfl⟩

/-- C1 (amended): on an initialized store, `mark_rolled_back(v)` always succeeds.
When `v` is present, its record is removed (and only records of other versions
remain); when `v` is absent, the call is a silent no-op on the ledger rather than
an error. -/
theorem mark_rolled_back_removes (st : SqliteStore) (v : Nat)
    (h : st.table_exists = true) :
    (st.mark_rolled_back v).1 = Except.ok () ∧
    (∀ r, r ∈ (st.mark_rolled_back v).2.rows ↔ r ∈ st.rows ∧ r.version ≠ toI64 v) ∧
    ((∀ r ∈ st.rows, r.version ≠ toI64 v) → (st.mark_rolled_back v).2 = st) := by
  obtain ⟨te, rows⟩ := st
  simp only at h
  subst h
  refine ⟨rfl, ?_, ?_⟩
  · intro r
    simp [SqliteStore.mark_rolled_back, List.mem_filter]
  · intro habs
    have hrows : rows.filter (fun r => !(r.version == toI64 v)) = rows := by
      rw [List.filter_eq_self]
      intro r hr
      simpa using habs r hr
    simp [SqliteStore.mark_rolled_back, hrows]

/-- Witness for C1's amended theorem: removing version 1 from `oneStore`
succeeds. -/
theorem mark_rolled_back_removes_witness :
    (oneStore.mark_rolled_back 1).1 = Except.ok () :=
  (mark_rolled_back_removes oneStore 1 rfl).1

/-- C5: on an initialized store, `mark_applied(v, name)` fails with a
`StoreError` (the `version INTEGER PRIMARY KEY` duplicate guard) and leaves the
ledger unchanged when a record keyed by `v` already exists; when none exists, it
succeeds and appends the record for `v`. -/
theorem mark_applied_guard (st : SqliteStore) (clock : Option Nat) (v : Nat)
    (nm : String) (h : st.table_exists = true) :
    ((∃ r ∈ st.rows, r.version = toI64 v) →
      (st.mark_applied clock v nm).1 =
        Except.error
          (CoreError.StoreError "UNIQUE constraint failed: _migrations.version") ∧
      (st.mark_applied clock v nm).2 = st) ∧
    ((∀ r ∈ st.rows, r.version ≠ toI64 v) →
      (st.mark_applied clock v nm).1 = Except.ok () ∧
      (st.mark_applied clock v nm).2.rows = st.rows ++ [appliedRow clock v nm]) := by
  refine ⟨fun hex => ?_, fun habs => ?_⟩
  · have hc : (st.rows.any fun r => r.version == toI64 v) = true := by
      simp only [List.any_eq_true, beq_iff_eq]
      exact hex
    simp [SqliteStore.mark_applied, h, hc, CoreError.store]
  · have hc : (st.rows.any fun r => r.version == toI64 v) = false := by
      simp only [List.any_eq_false, beq_iff_eq]
      exact habs
    simp [SqliteStore.mark_applied, h, hc]

/-- Witness for C5: inserting version 1 into the empty ledger succeeds, and
re-inserting it into `oneStore` hits the duplicate guard. -/
theorem mark_applied_guard_witness :
    ((freshStore.mark_applied (some 5) 1 "one").1 = Except.ok ()) ∧
    ((oneStore.mark_applied (some 9) 1 "again").1 =
      Except.error
        (CoreError.StoreError "UNIQUE constraint failed: _migrations.version")) := by
  constructor
  · exact ((mark_applied_guard freshStore (some 5) 1 "one" rfl).2 (by simp [freshStore])).1
  · exact ((mark_applied_guard oneStore (some 9) 1 "again" rfl).1 (by decide)).1

/-- C8: the `applied_at` column records the epoch-seconds clock value read at the
moment `mark_applied` runs — a successful read of `t` seconds stores `t`, a
failed read (`duration_since` error, time before the epoch) stores `0`, and in
either case `mark_applied` does not abort on account of the clock. -/
theorem mark_applied_timestamp (st : SqliteStore) (clock : Option Nat) (v : Nat)
    (nm : String) (h : st.table_exists = true)
    (habs : ∀ r ∈ st.rows, r.version ≠ toI64 v) :
    SqliteStore.now none = 0 ∧
    (∀ t, SqliteStore.now (some t) = t) ∧
    (st.mark_applied clock v nm).1 = Except.ok () ∧
    (st.mark_applied clock v nm).2.rows = st.rows ++
      [{ version := toI64 v, name := nm,
         applied_at := toI64 (SqliteStore.now clock) }] := by
  have hc : (st.rows.any fun r => r.version == toI64 v) = false := by
    simp only [List.any_eq_false, beq_iff_eq]
    exact habs
  refine ⟨rfl, fun t => rfl, ?_, ?_⟩ <;>
    simp [SqliteStore.mark_applied, h, hc, appliedRow]

/-- Witness for C8: a failed clock read stores `applied_at = 0` and the insert
still succeeds. -/
theorem mark_applied_timestamp_witness :
    (freshStore.mark_applied none 1 "one").1 = Except.ok () ∧
    (freshStore.mark_applied none 1 "one").2.rows =
      freshStore.rows ++
        [{ version := toI64 1, name := "one",
           applied_at := toI64 (SqliteStore.now none) }] := by
  have h := mark_applied_timestamp freshStore none 1 "one" rfl (by simp [freshStore])
  exact ⟨h.2.2.1, h.2.2.2⟩

/-- The `u64 → i64 → u64` cast round-trip is the identity on 64-bit values, so
the `version` and `name` a record was created with are read back verbatim. -/
theorem toU64_toI64 (v : Nat) (hv : v < 2 ^ 64) : toU64 (toI64 v) = v := by
  unfold toI64 toU64
  rw [Nat.mod_eq_of_lt hv]
  split <;> omega

/-- Casting `i64 → u64` is monotone on nonnegative values below `2 ^ 64`. -/
theorem toU64_mono (i j : Int) (hi : 0 ≤ i) (hj : j < 2 ^ 64) (hij : i ≤ j) :
    toU64 i ≤ toU64 j := by
  unfold toU64
  omega

/-- C6 (amended): on an initialized store whose recorded keys are all in
`[0, 2 ^ 63)` — i.e. every recorded version is below `2 ^ 63`, so the stored
`i64` key is nonnegative — `applied()` succeeds and returns exactly the recorded
rows (as `MigrationRecord`s), sorted ascending by version; and for any `v <
2 ^ 64`, the row `mark_applied(v, name)` creates reads back with exactly that
version and name. -/
theorem applied_sorted (st : SqliteStore) (h : st.table_exists = true)
    (hv : ∀ r ∈ st.rows, 0 ≤ r.version ∧ r.version < 2 ^ 63) :
    (∃ l, st.applied = Except.ok l ∧
      l.Perm (st.rows.map rowToRecord) ∧
      l.Pairwise (fun a b => a.version ≤ b.version)) ∧
    (∀ (clock : Option Nat) (v : Nat) (nm : String), v < 2 ^ 64 →
      (rowToRecord (appliedRow clock v nm)).version = v ∧
      (rowToRecord (appliedRow clock v nm)).name = nm) := by
  constructor
  · refine ⟨(List.insertionSort (fun a b => a.version ≤ b.version) st.rows).map
      rowToRecord, by simp [SqliteStore.applied, h], ?_, ?_⟩
    · exact (List.perm_insertionSort _ st.rows).map rowToRecord
    · haveI : IsTotal LedgerRow (fun a b => a.version ≤ b.version) :=
        ⟨fun a b => le_total a.version b.version⟩
      haveI : IsTrans LedgerRow (fun a b => a.version ≤ b.version) :=
        ⟨fun _ _ _ hab hbc => le_trans hab hbc⟩
      have hs : (List.insertionSort (fun a b : LedgerRow => a.version ≤ b.version)
          st.rows).Pairwise (fun a b => a.version ≤ b.version) :=
        List.sorted_insertionSort _ st.rows
      rw [List.pairwise_map]
      refine hs.imp_of_mem ?_
      intro a b ha hb hab
      have hva := hv a ((List.mem_insertionSort _).1 ha)
      have hvb := hv b ((List.mem_insertionSort _).1 hb)
      exact toU64_mono a.version b.version hva.1
        (lt_trans hvb.2 (by norm_num)) hab
  · intro clock v nm hv64
    exact ⟨toU64_toI64 v hv64, rfl⟩

/-- Witness for C6's amended theorem at the one-record store. -/
theorem applied_sorted_witness :
    (rowToRecord (appliedRow (some 5) 1 "one")).version = 1 ∧
    (rowToRecord (appliedRow (some 5) 1 "one")).name = "one" :=
  (applied_sorted oneStore rfl (by decide)).2 (some 5) 1 "one" (by norm_num)

/-- A store holding versions `1` and `2 ^ 63`, built through `mark_applied`. -/
def bigStore : SqliteStore :=
  ((freshStore.mark_applied (some 5) 1 "one").2.mark_applied (some 6) (2 ^ 63)
    "big").2

/-- C6 counterexample: `sqlite.rs` binds `version as i64` and sorts with
`ORDER BY version` on the stored `INTEGER`.  After applying versions `1` and
`2 ^ 63`, the stored key of `2 ^ 63` is the negative `i64` `-2 ^ 63`, so
`applied()` returns the records as `[2 ^ 63, 1]` — not ascending by (u64)
version, refuting the claim as stated. -/
theorem applied_order_counterexample :
    bigStore.applied = Except.ok
      [{ version := 2 ^ 63, name := "big", applied_at := 6 },
       { version := 1, name := "one", applied_at := 5 }] ∧
    ¬ List.Pairwise (fun a b => a.version ≤ b.version)
      [({ version := 2 ^ 63, name := "big", applied_at := 6 } : MigrationRecord),
       { version := 1, name := "one", applied_at := 5 }] := by
  constructor
  · rfl
  · decide

end MigrationsSql
